import Mathlib

/-!
Shallow embedding of the auto-parallel graph partitioner
(python/paddle/distributed/auto_parallel/partitioner.py).

Pure helper functions of the source become Lean functions; fallible code
(Python assert / raise / KeyError / AttributeError / IndexError) returns
Except Fault; the mutable state threaded through the Partitioner object
(the serial-to-dist variable renaming table, the destination block, the
distributed-attribute store) is passed explicitly.  External collaborators
(the autodiff engine, the completion pass, the distributed-operator
registry) are parameters of the embedding, mirroring the interfaces the
source consumes.
-/

set_option maxHeartbeats 1000000

/-- Faults raised by the partitioner core, one constructor per distinct
Python raise/assert site reachable from the embedded code. -/
inductive Fault where
  | shapeMismatch
  | unevenPartition
  | indexError
  | zeroDivision
  | lookupFailure (name : String)
  | distVarNotFound (name : String)
  | srcVarNotFound (name : String)
  | varNotInAllowList (name : String)
  | attributeError
  | nameError
  | keyError
  | incompleteAnnot
  | notSupportedSharding
  | notImplementedTranspile
  | invalidLoss (shape : List Int)
  | noBackwardOps
  | noForwardOps
  deriving Repr, DecidableEq

/-- Python list indexing xs[i]: non-negative indices from the front,
negative indices from the back, IndexError when out of range. -/
def pyIndex (xs : List Nat) (i : Int) : Except Fault Nat :=
  let j : Int := if i < 0 then (xs.length : Int) + i else i
  if 0 ≤ j ∧ j < (xs.length : Int) then
    match xs.get? j.toNat with
    | some v => Except.ok v
    | none => Except.error Fault.indexError
  else Except.error Fault.indexError

/-- Variable kind: core.VarDesc.VarType.READER versus all the other
tensor-like kinds the partitioner treats uniformly. -/
inductive VarType where
  | reader
  | lodTensor
  | other
  deriving Repr, DecidableEq

/-- Variable descriptor: the fields of a fluid Variable / Parameter that
partitioner.py reads or copies.  Opaque metadata objects (dtype code,
lod level, error-clip policy, optimize attr, regularizer) are modelled
as plain numbers since the partitioner only moves them around. -/
structure VarDesc where
  name : String
  type : VarType
  shape : List Int
  dtype : Nat
  lod_level : Nat
  persistable : Bool
  stop_gradient : Bool
  is_data : Bool
  belong_to_optimizer : Bool
  error_clip : Nat
  isParameter : Bool
  trainable : Bool
  optimize_attr : Nat
  regularizer : Nat
  do_model_average : Bool
  need_clip : Bool
  deriving Repr, DecidableEq

/-- Modelled from the spec: the default field values Block.create_var
assigns to fields that are not passed explicitly (the framework
collaborator paddle.fluid.framework is outside the partitioner source);
the spec only requires these defaults to be fixed values independent of
the source variable. -/
def defaultVarDesc : VarDesc :=
  { name := ""
    type := VarType.lodTensor
    shape := []
    dtype := 5
    lod_level := 0
    persistable := false
    stop_gradient := false
    is_data := false
    belong_to_optimizer := false
    error_clip := 0
    isParameter := false
    trainable := false
    optimize_attr := 0
    regularizer := 0
    do_model_average := false
    need_clip := true }

/-- Tensor distribution attribute: the two components _get_dist_shape
reads (dims_mapping and the process-mesh topology). -/
structure TensorDistAttr where
  dims_mapping : List Int
  topology : List Nat
  deriving Repr, DecidableEq

/-- One dimension of the loop body of _get_dist_shape: keep wildcard or
non-distributed sizes, otherwise require even division by the mapped
mesh-axis extent and divide. -/
def distShapeDim (s m : Int) (mesh : List Nat) : Except Fault Int :=
  if s = -1 ∨ m = -1 then Except.ok s
  else
    match pyIndex mesh m with
    | Except.error e => Except.error e
    | Except.ok d =>
      if (d : Int) = 0 then Except.error Fault.zeroDivision
      else if s % (d : Int) = 0 then Except.ok (s / (d : Int))
      else Except.error Fault.unevenPartition

/-- The index loop of _get_dist_shape over the paired shape and mapping
entries. -/
def distShapeLoop : List Int → List Int → List Nat → Except Fault (List Int)
  | [], [], _ => Except.ok []
  | s :: ss, m :: ms, mesh =>
    match distShapeDim s m mesh with
    | Except.error e => Except.error e
    | Except.ok x =>
      match distShapeLoop ss ms mesh with
      | Except.error e => Except.error e
      | Except.ok rest => Except.ok (x :: rest)
  | _, _, _ => Except.error Fault.shapeMismatch

/-- Embedding of _get_dist_shape(var, dist_attr): asserts the shape and
dims_mapping have equal length, then computes the local shard shape
dimension-wise. -/
def _get_dist_shape (var : VarDesc) (attr : TensorDistAttr) : Except Fault (List Int) :=
  if var.shape.length = attr.dims_mapping.length then
    distShapeLoop var.shape attr.dims_mapping attr.topology
  else Except.error Fault.shapeMismatch

/-- A graph block: a set of variable descriptors keyed by name
(operator lists are threaded separately where a claim needs them). -/
structure Block where
  vars : List VarDesc
  deriving Repr, DecidableEq

/-- Block.var lookup by name (fluid Block.var / has_var). -/
def Block.varByName (b : Block) (n : String) : Option VarDesc :=
  b.vars.find? (fun v => v.name = n)

def Block.hasVar (b : Block) (n : String) : Bool :=
  (b.varByName n).isSome

def Block.addVar (b : Block) (v : VarDesc) : Block :=
  ⟨b.vars ++ [v]⟩

/-- The tensor side of the Distribution-Attribute Store
(get_tensor_distributed_attr_for_program), keyed by variable name. -/
def TensorAttrStore : Type := String → Option TensorDistAttr

/-- Embedding of _partition_parameter: a Parameter is re-created in the
destination block with the computed local shape and the listed source
fields copied verbatim. -/
def _partition_parameter (src : VarDesc) (dst_varname : String) (dst_shape : List Int) : VarDesc :=
  { name := dst_varname
    type := src.type
    shape := dst_shape
    dtype := src.dtype
    lod_level := src.lod_level
    persistable := true
    stop_gradient := src.stop_gradient
    is_data := src.is_data
    belong_to_optimizer := src.belong_to_optimizer
    error_clip := src.error_clip
    isParameter := true
    trainable := src.trainable
    optimize_attr := src.optimize_attr
    regularizer := src.regularizer
    do_model_average := src.do_model_average
    need_clip := src.need_clip }

/-- Embedding of _partition_intermediate_var: an ordinary variable is
re-created with the computed local shape and the listed source fields
copied; parameter-only fields take create_var defaults. -/
def _partition_intermediate_var (src : VarDesc) (dst_varname : String) (dst_shape : List Int) : VarDesc :=
  { defaultVarDesc with
    name := dst_varname
    type := src.type
    shape := dst_shape
    dtype := src.dtype
    lod_level := src.lod_level
    persistable := src.persistable
    error_clip := src.error_clip
    stop_gradient := src.stop_gradient
    is_data := src.is_data
    belong_to_optimizer := src.belong_to_optimizer }

/-- The variable created by the reader branch of _partition_var: only
type and name are passed to create_var, plus persistable=True and
stop_gradient=True; every other field keeps the create_var default. -/
def readerPartitionedVar (src : VarDesc) (dst_varname : String) : VarDesc :=
  { defaultVarDesc with
    name := dst_varname
    type := src.type
    persistable := true
    stop_gradient := true }

/-- Embedding of _partition_var: looks up the source variable, special
cases READER variables, otherwise fetches the tensor dist attr (an
absent attr faults like Python None.get_dims_mapping), computes the
local shard shape and re-creates the variable; the store gains an entry
for the new variable with the same attribute. -/
def _partition_var (store : TensorAttrStore) (src_block dst_block : Block)
    (src_varname dst_varname : String) : Except Fault (Block × TensorAttrStore) :=
  match src_block.varByName src_varname with
  | none => Except.error (Fault.srcVarNotFound src_varname)
  | some src =>
    if src.type = VarType.reader then
      Except.ok (dst_block.addVar (readerPartitionedVar src dst_varname), store)
    else
      match store src_varname with
      | none => Except.error Fault.attributeError
      | some attr =>
        match _get_dist_shape src attr with
        | Except.error e => Except.error e
        | Except.ok target_shape =>
          let newVar := if src.isParameter then _partition_parameter src dst_varname target_shape
                        else _partition_intermediate_var src dst_varname target_shape
          Except.ok (dst_block.addVar newVar,
                     fun n => if n = dst_varname then some attr else store n)

/-- Serial operator descriptor: the pieces partitioner.py reads (type
tag, stable numeric desc id, flattened input/output argument names, and
the op_role attribute). -/
structure SerialOp where
  id : Nat
  type : String
  input_arg_names : List String
  output_arg_names : List String
  op_role : Nat
  deriving Repr, DecidableEq

/-- Operator distribution attribute: the implementation-choice index the
partitioner consumes (get_impl_idx). -/
structure OpDistAttr where
  impl_idx : Int
  deriving Repr, DecidableEq

/-- The operator side of the Distribution-Attribute Store
(get_op_distributed_attr_for_program), keyed by operator id. -/
def OpAttrStore : Type := Nat → Option OpDistAttr

/-- A registered distributed-operator implementation with its two
capability flags. -/
structure DistOpImpl where
  forward_implemented : Bool
  backward_implemented : Bool
  deriving Repr, DecidableEq

/-- A set of implementations for one operator type (get_impl by index). -/
structure DistOpImplSet where
  impls : List DistOpImpl
  deriving Repr, DecidableEq

/-- The distributed-operator registry (get_distributed_operator): type
tag to implementation set, none when the type has no registration. -/
def Registry : Type := String → Option DistOpImplSet

/-- Fixed suffix appended to every serial variable name to form the
distributed name (Partitioner.__init__ sets the empty string). -/
def _dist_varname_suffix : String := ""

/-- Allow-list of names an operator may reference without the variable
being present in the block (__varname_not_in_block__). -/
def __varname_not_in_block__ : List String := ["lod_tensor_blocking_queue_0"]

/-- First-match lookup in the serial-to-dist renaming table, mirroring
a Python dict read (entries are unique by construction). -/
def lookupName : List (String × String) → String → Option String
  | [], _ => none
  | p :: rest, k => if p.1 = k then some p.2 else lookupName rest k

/-- Embedding of _is_dist_op_forward_implement, with Python and-chain
short-circuit semantics: a missing implementation set is falsy before
the attribute is touched, while a missing attribute under a registered
set raises AttributeError at get_impl_idx; a chosen index outside the
implementation list raises IndexError at get_impl. -/
def _is_dist_op_forward_implement (registry : Registry) (op_store : OpAttrStore)
    (op : SerialOp) : Except Fault Bool :=
  match registry op.type with
  | none => Except.ok false
  | some dist_ops =>
    match op_store op.id with
    | none => Except.error Fault.attributeError
    | some attr =>
      if attr.impl_idx < 0 then Except.ok false
      else
        match dist_ops.impls.get? attr.impl_idx.toNat with
        | none => Except.error Fault.indexError
        | some impl => Except.ok impl.forward_implemented

/-- Embedding of _is_dist_op_backward_implement (same shape, backward
capability flag). -/
def _is_dist_op_backward_implement (registry : Registry) (op_store : OpAttrStore)
    (op : SerialOp) : Except Fault Bool :=
  match registry op.type with
  | none => Except.ok false
  | some dist_ops =>
    match op_store op.id with
    | none => Except.error Fault.attributeError
    | some attr =>
      if attr.impl_idx < 0 then Except.ok false
      else
        match dist_ops.impls.get? attr.impl_idx.toNat with
        | none => Except.error Fault.indexError
        | some impl => Except.ok impl.backward_implemented

/-- Which implementation a partitioned operator is dispatched to. -/
inductive OpDispatch where
  | distImpl (opType : String) (implIdx : Nat)
  | defaultReplicate
  deriving Repr, DecidableEq

/-- The forward dispatch decision of the operator-partitioning loop:
when _is_dist_op_forward_implement holds, the registered implementation
selected by the attribute's impl_idx handles the op; otherwise the
reserved default replicate implementation (index 0) does. -/
def forward_op_dispatch (registry : Registry) (op_store : OpAttrStore)
    (op : SerialOp) : Except Fault OpDispatch :=
  match _is_dist_op_forward_implement registry op_store op with
  | Except.error e => Except.error e
  | Except.ok implemented =>
    if implemented then
      match op_store op.id with
      | none => Except.error Fault.attributeError
      | some attr =>
        match registry op.type with
        | none => Except.error Fault.attributeError
        | some dist_ops =>
          match dist_ops.impls.get? attr.impl_idx.toNat with
          | none => Except.error Fault.indexError
          | some _ => Except.ok (OpDispatch.distImpl op.type attr.impl_idx.toNat)
    else Except.ok OpDispatch.defaultReplicate

/-- Backward dispatch decision for a gradient operator, driven by its
originating forward operator's attribute (lines 493-512). -/
def backward_op_dispatch (registry : Registry) (op_store : OpAttrStore)
    (forward_op : SerialOp) : Except Fault OpDispatch :=
  match _is_dist_op_backward_implement registry op_store forward_op with
  | Except.error e => Except.error e
  | Except.ok implemented =>
    if implemented then
      match op_store forward_op.id with
      | none => Except.error Fault.attributeError
      | some attr => Except.ok (OpDispatch.distImpl forward_op.type attr.impl_idx.toNat)
    else Except.ok OpDispatch.defaultReplicate

/-- Mutable state of one forward partitioning session: the renaming
table, the destination global block, the tensor-attribute store, and
the trace of dispatch decisions in operator order. -/
structure FwdState where
  mapping : List (String × String)
  dstBlock : Block
  store : TensorAttrStore
  dispatches : List OpDispatch

/-- The input-variable partitioning loop of one operator (lines
372-384): names already in the renaming table are skipped; otherwise
the variable is partitioned when present in the serial block, names
absent from the block must be on the allow-list, and the renaming table
gains the new entry. -/
def partition_input_vars (serial_block : Block) :
    List String → FwdState → Except Fault FwdState
  | [], st => Except.ok st
  | name :: rest, st =>
    if (lookupName st.mapping name).isSome then
      partition_input_vars serial_block rest st
    else
      if serial_block.hasVar name then
        match _partition_var st.store serial_block st.dstBlock name
            (name ++ _dist_varname_suffix) with
        | Except.error e => Except.error e
        | Except.ok (b, s) =>
          partition_input_vars serial_block rest
            { st with dstBlock := b, store := s,
                      mapping := st.mapping ++ [(name, name ++ _dist_varname_suffix)] }
      else
        if name ∈ __varname_not_in_block__ then
          partition_input_vars serial_block rest
            { st with mapping := st.mapping ++ [(name, name ++ _dist_varname_suffix)] }
        else Except.error (Fault.varNotInAllowList name)

/-- The output-variable partitioning loop of one operator (lines
386-394): like the input loop but with no allow-list escape, the
variable is partitioned unconditionally (a missing source faults). -/
def partition_output_vars (serial_block : Block) :
    List String → FwdState → Except Fault FwdState
  | [], st => Except.ok st
  | name :: rest, st =>
    if (lookupName st.mapping name).isSome then
      partition_output_vars serial_block rest st
    else
      match _partition_var st.store serial_block st.dstBlock name
          (name ++ _dist_varname_suffix) with
      | Except.error e => Except.error e
      | Except.ok (b, s) =>
        partition_output_vars serial_block rest
          { st with dstBlock := b, store := s,
                    mapping := st.mapping ++ [(name, name ++ _dist_varname_suffix)] }

/-- One iteration of the main forward loop (lines 369-411): partition
this operator's input then output variables, then dispatch the operator
itself. -/
def transpile_one_op (registry : Registry) (op_store : OpAttrStore)
    (serial_block : Block) (op : SerialOp) (st : FwdState) : Except Fault FwdState :=
  match partition_input_vars serial_block op.input_arg_names st with
  | Except.error e => Except.error e
  | Except.ok st1 =>
    match partition_output_vars serial_block op.output_arg_names st1 with
    | Except.error e => Except.error e
    | Except.ok st2 =>
      match forward_op_dispatch registry op_store op with
      | Except.error e => Except.error e
      | Except.ok d => Except.ok { st2 with dispatches := st2.dispatches ++ [d] }

/-- Embedding of the main-program half of _dist_var_op_forward_transpile:
the serial operators are walked in order, growing the renaming table,
destination block and attribute store. -/
def _dist_var_op_forward_transpile (registry : Registry) (op_store : OpAttrStore)
    (serial_block : Block) :
    List SerialOp → FwdState → Except Fault FwdState
  | [], st => Except.ok st
  | op :: rest, st =>
    match transpile_one_op registry op_store serial_block op st with
    | Except.error e => Except.error e
    | Except.ok st1 => _dist_var_op_forward_transpile registry op_store serial_block rest st1

/-- Embedding of _is_valid_annotated_program: every operator and every
variable of the serial program must carry a distribution attribute. -/
def _is_valid_annotated_program (op_store : OpAttrStore) (store : TensorAttrStore)
    (serial_block : Block) (ops : List SerialOp) : Bool :=
  ops.all (fun op => (op_store op.id).isSome) &&
    serial_block.vars.all (fun v => (store v.name).isSome)

/-- Observable milestones of one transpile_forward_impl call, emitted in
execution order. -/
inductive FwdPhaseEvent where
  | annotationValidated
  | distVarOpForwardTranspiled
  deriving Repr, DecidableEq

/-- Embedding of transpile_forward_impl: validate annotations, run the
dist-var/op forward transpile, and only then consult the sharding flag,
whose hook _sharding_forward_transpile unconditionally raises.  The
event list records which phases completed, in order. -/
def transpile_forward_impl (sharding : Bool) (registry : Registry)
    (op_store : OpAttrStore) (serial_block : Block) (ops : List SerialOp)
    (st0 : FwdState) : List FwdPhaseEvent × Except Fault FwdState :=
  if ¬ _is_valid_annotated_program op_store st0.store serial_block ops then
    ([], Except.error Fault.incompleteAnnot)
  else
    match _dist_var_op_forward_transpile registry op_store serial_block ops st0 with
    | Except.error e => ([FwdPhaseEvent.annotationValidated], Except.error e)
    | Except.ok st1 =>
      if sharding then
        ([FwdPhaseEvent.annotationValidated, FwdPhaseEvent.distVarOpForwardTranspiled],
         Except.error Fault.notSupportedSharding)
      else
        ([FwdPhaseEvent.annotationValidated, FwdPhaseEvent.distVarOpForwardTranspiled],
         Except.ok st1)

/-- Operator role constants (OpRole.Forward, OpRole.Backward, and the
Loss modifier bit). -/
def kOpRoleForward : Nat := 0

def kOpRoleBackward : Nat := 1

def kOpRoleLoss : Nat := 256

/-- Embedding of is_forward_op: the role equals Forward or Forward|Loss. -/
def is_forward_op (op : SerialOp) : Bool :=
  op.op_role == kOpRoleForward || op.op_role == (kOpRoleForward ||| kOpRoleLoss)

/-- First-match lookup in an association list keyed by operator id. -/
def lookupNat {α : Type} : List (Nat × α) → Nat → Option α
  | [], _ => none
  | p :: rest, k => if p.1 = k then some p.2 else lookupNat rest k

/-- The scan of lines 474-480: collect forward operators into the
forward_op_id2forward_op table until the first backward-role operator,
whose index is returned. -/
def forwardScan : List SerialOp → Nat → List (Nat × SerialOp) × Option Nat
  | [], _ => ([], none)
  | op :: rest, i =>
    let entry := if is_forward_op op then [(op.id, op)] else []
    if op.op_role = kOpRoleBackward then (entry, some i)
    else
      let scanned := forwardScan rest (i + 1)
      (entry ++ scanned.1, scanned.2)

/-- The backward substitution loop of lines 486-512: gradient operators
with a recorded forward cross-reference are dispatched (dist impl or
replicate fallback); operators without one are left untouched; a
cross-reference to an unknown forward id is a KeyError. -/
def backwardLoop (registry : Registry) (op_store : OpAttrStore)
    (gradMap : List (Nat × Nat)) (fwdMap : List (Nat × SerialOp)) :
    List SerialOp → List OpDispatch → Except Fault (List OpDispatch)
  | [], acc => Except.ok acc
  | bop :: rest, acc =>
    match lookupNat gradMap bop.id with
    | none => backwardLoop registry op_store gradMap fwdMap rest acc
    | some fid =>
      match lookupNat fwdMap fid with
      | none => Except.error Fault.keyError
      | some fop =>
        match backward_op_dispatch registry op_store fop with
        | Except.error e => Except.error e
        | Except.ok d => backwardLoop registry op_store gradMap fwdMap rest (acc ++ [d])

/-- What the autodiff collaborator returns: the (parameter, gradient)
pairs, the gradient operators it appended in place, and the
gradient-op-id to forward-op-id cross-reference. -/
structure AutodiffOutcome where
  params_and_grads : List (String × String)
  appendedOps : List SerialOp
  gradopidx2opidx : List (Nat × Nat)
  deriving Repr, DecidableEq

/-- The autodiff collaborator (append_backward) as a function of the
translated parameter-name list (none = differentiate everything) and
the effective no-grad name set. -/
def AutodiffFn : Type := Option (List String) → List String → AutodiffOutcome

/-- Embedding of _get_no_grad_set_name over an optional collection of
variables. -/
def _get_no_grad_set_name (no_grad_set : Option (List VarDesc)) : List String :=
  match no_grad_set with
  | none => []
  | some l => l.map (fun v => v.name)

/-- Embedding of _get_no_grad_set: the caller-supplied names plus every
non-trainable parameter of the program owning the loss. -/
def _get_no_grad_set (dist_block : Block) (no_grad_set : Option (List VarDesc)) : List String :=
  _get_no_grad_set_name no_grad_set ++
    ((dist_block.vars.filter (fun p => p.isParameter && !p.trainable)).map (fun p => p.name))

/-- Embedding of _auto_backward: computes the effective no-grad set,
re-asserts that the loss it receives has shape (1,), then invokes the
autodiff collaborator; the arguments handed to the collaborator are
part of the returned value so theorems can observe them. -/
def _auto_backward (dist_block : Block) (loss : VarDesc)
    (parameter_list no_grad_set : Option (List VarDesc)) (autodiff : AutodiffFn) :
    Except Fault (Option (List String) × List String × AutodiffOutcome) :=
  if loss.shape = [1] then
    Except.ok (parameter_list.map (fun l => l.map (fun v => v.name)),
               _get_no_grad_set dist_block no_grad_set,
               autodiff (parameter_list.map (fun l => l.map (fun v => v.name)))
                 (_get_no_grad_set dist_block no_grad_set))
  else Except.error (Fault.invalidLoss loss.shape)

/-- Embedding of Partitioner._serial_varname2dist_var: a renaming-table
miss is the LookupFailure assert, then the distributed variable must
exist in the distributed program. -/
def _serial_varname2dist_var (mapping : List (String × String)) (dist_block : Block)
    (serial_varname : String) : Except Fault VarDesc :=
  match lookupName mapping serial_varname with
  | none => Except.error (Fault.lookupFailure serial_varname)
  | some dist_varname =>
    match dist_block.varByName dist_varname with
    | none => Except.error (Fault.distVarNotFound dist_varname)
    | some v => Except.ok v

/-- Translation of a list of serial variables through the renaming
table (the parameter-list / no-grad-set comprehensions of lines
443-454). -/
def translate_vars (mapping : List (String × String)) (dist_block : Block) :
    List VarDesc → Except Fault (List VarDesc)
  | [] => Except.ok []
  | p :: ps =>
    match _serial_varname2dist_var mapping dist_block p.name with
    | Except.error e => Except.error e
    | Except.ok v =>
      match translate_vars mapping dist_block ps with
      | Except.error e => Except.error e
      | Except.ok rest => Except.ok (v :: rest)

/-- Everything a backward transpile run produces that the claims
observe: the returned pairs, the arguments that reached the autodiff
collaborator, and the backward dispatch decisions. -/
structure BackwardOutcome where
  params_and_grads : List (String × String)
  autodiffParams : Option (List String)
  autodiffNoGrad : List String
  backwardDispatches : List OpDispatch
  deriving Repr, DecidableEq

/-- Embedding of _dist_var_op_backward_transpile: on the compatible
path, translate the loss, assert the translated loss is a scalar,
translate non-empty parameter/no-grad lists (Python truthiness: None
and the empty list are both passed through untranslated), run
_auto_backward, apply the completion collaborator to the operator
attribute store, then re-scan the distributed operator list and
dispatch every backward operator that has a forward cross-reference. -/
def _dist_var_op_backward_transpile
    (compatible : Bool) (registry : Registry) (op_store : OpAttrStore)
    (completion : OpAttrStore → OpAttrStore)
    (mapping : List (String × String)) (dist_block : Block) (dist_ops0 : List SerialOp)
    (serial_loss : VarDesc)
    (parameter_list no_grad_set : Option (List VarDesc))
    (autodiff : AutodiffFn) : Except Fault BackwardOutcome :=
  if compatible then
    match _serial_varname2dist_var mapping dist_block serial_loss.name with
    | Except.error e => Except.error e
    | Except.ok dist_loss =>
      if dist_loss.shape = [1] then
        match (match parameter_list with
               | some (p :: ps) =>
                 match translate_vars mapping dist_block (p :: ps) with
                 | Except.error e => Except.error e
                 | Except.ok l => Except.ok (some l)
               | other => Except.ok other) with
        | Except.error e => Except.error e
        | Except.ok parameter_list2 =>
          match (match no_grad_set with
                 | some (p :: ps) =>
                   match translate_vars mapping dist_block (p :: ps) with
                   | Except.error e => Except.error e
                   | Except.ok l => Except.ok (some l)
                 | other => Except.ok other) with
          | Except.error e => Except.error e
          | Except.ok no_grad_set2 =>
            match _auto_backward dist_block dist_loss parameter_list2 no_grad_set2 autodiff with
            | Except.error e => Except.error e
            | Except.ok (plNames, ngNames, outcome) =>
              match (forwardScan (dist_ops0 ++ outcome.appendedOps) 0).2 with
              | none => Except.error Fault.noBackwardOps
              | some i =>
                if (forwardScan (dist_ops0 ++ outcome.appendedOps) 0).1.isEmpty then
                  Except.error Fault.noForwardOps
                else
                  match backwardLoop registry (completion op_store) outcome.gradopidx2opidx
                      (forwardScan (dist_ops0 ++ outcome.appendedOps) 0).1
                      ((dist_ops0 ++ outcome.appendedOps).drop i) [] with
                  | Except.error e => Except.error e
                  | Except.ok ds =>
                    Except.ok { params_and_grads := outcome.params_and_grads,
                                autodiffParams := plNames,
                                autodiffNoGrad := ngNames,
                                backwardDispatches := ds }
      else Except.error (Fault.invalidLoss dist_loss.shape)
  else Except.error Fault.notImplementedTranspile

/-- Embedding of apply_backward_impl: forwards to the backward
transpile WITHOUT its optional parameter_list / no_grad_set / callbacks
arguments (source lines 252-254 pass only the five positional
programs), then consults the sharding flag, whose backward branch
references an undefined local and so raises a NameError. -/
def apply_backward_impl
    (sharding compatible : Bool) (registry : Registry) (op_store : OpAttrStore)
    (completion : OpAttrStore → OpAttrStore)
    (mapping : List (String × String)) (dist_block : Block) (dist_ops0 : List SerialOp)
    (serial_loss : VarDesc)
    (parameter_list no_grad_set : Option (List VarDesc))
    (autodiff : AutodiffFn) : Except Fault BackwardOutcome :=
  match _dist_var_op_backward_transpile compatible registry op_store completion
      mapping dist_block dist_ops0 serial_loss none none autodiff with
  | Except.error e => Except.error e
  | Except.ok out =>
    if sharding then Except.error Fault.nameError
    else Except.ok out

/-- Embedding of the public apply_backward: source lines 187-189 call
apply_backward_impl with only the five program arguments, so the
caller's parameter_list, no_grad_set and callbacks are dropped at this
boundary as well (impl's own optional arguments default to None). -/
def apply_backward
    (sharding compatible : Bool) (registry : Registry) (op_store : OpAttrStore)
    (completion : OpAttrStore → OpAttrStore)
    (mapping : List (String × String)) (dist_block : Block) (dist_ops0 : List SerialOp)
    (serial_loss : VarDesc)
    (parameter_list no_grad_set : Option (List VarDesc)) (callbacks : Option (List Nat))
    (autodiff : AutodiffFn) : Except Fault BackwardOutcome :=
  apply_backward_impl sharding compatible registry op_store completion mapping dist_block
    dist_ops0 serial_loss none none autodiff

/-- The renaming table of state m2 extends that of m by appended entries
whose distributed name is the serial name plus the fixed suffix. -/
def GrowsBySuffix (m m2 : List (String × String)) : Prop :=
  ∃ extra, m2 = m ++ extra ∧ ∀ p ∈ extra, p.2 = p.1 ++ _dist_varname_suffix


/-- Concrete fixtures used by witnesses and counterexamples. -/
def wVar : VarDesc :=
  { defaultVarDesc with name := "linear_w", shape := [256, 64], isParameter := true, trainable := true }

def wVarUneven : VarDesc :=
  { defaultVarDesc with name := "linear_w", shape := [255, 64], isParameter := true, trainable := true }

def wAttr : TensorDistAttr := { dims_mapping := [0, -1], topology := [4] }

def cSerialBlock : Block :=
  ⟨[{ defaultVarDesc with name := "x", shape := [4, 4] },
    { defaultVarDesc with name := "y", shape := [4, 4] }]⟩

def cTensorStore : TensorAttrStore :=
  fun n => if n = "x" ∨ n = "y" then some { dims_mapping := [-1, -1], topology := [4] } else none

def cOp : SerialOp :=
  { id := 7, type := "relu", input_arg_names := ["x"], output_arg_names := ["y"], op_role := 0 }

def cRegistry : Registry := fun _ => none

def cOpAttrStore : OpAttrStore := fun _ => some { impl_idx := 0 }

def cDstBlock : Block :=
  ⟨[{ defaultVarDesc with name := "x", shape := [4, 4] },
    { defaultVarDesc with name := "y", shape := [4, 4] }]⟩

def cSt0 : FwdState :=
  { mapping := [("x", "x"), ("y", "y")], dstBlock := cDstBlock, store := cTensorStore,
    dispatches := [] }

def cSt1 : FwdState := { cSt0 with dispatches := [OpDispatch.defaultReplicate] }

def cEmptyBlock : Block := ⟨[]⟩

def cImplSet : DistOpImplSet :=
  { impls := [{ forward_implemented := true, backward_implemented := true }] }

def cRegistryMatmul : Registry := fun t => if t = "matmul" then some cImplSet else none

def cOpAttrNone : OpAttrStore := fun _ => none

def cOpAttrZero : OpAttrStore := fun _ => some { impl_idx := 0 }

def cMatmulOp : SerialOp :=
  { id := 3, type := "matmul", input_arg_names := ["x", "w"], output_arg_names := ["y"],
    op_role := 0 }

def cLossMapping : List (String × String) := [("loss", "loss")]

def cDistLossBlock : Block := ⟨[{ defaultVarDesc with name := "loss", shape := [1] }]⟩

def cDistLossBlock81 : Block := ⟨[{ defaultVarDesc with name := "loss", shape := [8, 1] }]⟩

def cDistLoss81 : VarDesc := { defaultVarDesc with name := "loss", shape := [8, 1] }

def cSerialLossVec : VarDesc := { defaultVarDesc with name := "loss", shape := [4] }

def cSerialLoss81 : VarDesc := { defaultVarDesc with name := "loss", shape := [8, 1] }

def cSerialLossScalar : VarDesc := { defaultVarDesc with name := "loss", shape := [1] }

def cFwdOp : SerialOp :=
  { id := 1, type := "mul", input_arg_names := [], output_arg_names := [], op_role := 0 }

def cBwdOp : SerialOp :=
  { id := 2, type := "mul_grad", input_arg_names := [], output_arg_names := [], op_role := 1 }

def cAutodiff : AutodiffFn :=
  fun _ _ => { params_and_grads := [("w", "w@GRAD")], appendedOps := [cBwdOp],
               gradopidx2opidx := [] }

def cW : VarDesc := { defaultVarDesc with name := "w", isParameter := true, trainable := true }

def cBackwardOut : BackwardOutcome :=
  { params_and_grads := [("w", "w@GRAD")], autodiffParams := none, autodiffNoGrad := [],
    backwardDispatches := [] }

def cReaderSrc : VarDesc :=
  { defaultVarDesc with
    name := "reader_q"
    type := VarType.reader
    stop_gradient := false
    dtype := 7
    shape := [3] }

def cReaderBlock : Block := ⟨[cReaderSrc]⟩

theorem distShapeDim_spec (s m : Int) (mesh : List Nat) (x : Int)
    (h : distShapeDim s m mesh = Except.ok x) :
    ((s = -1 ∨ m = -1) → x = s) ∧
    (s ≠ -1 → m ≠ -1 →
      ∃ d : Nat, pyIndex mesh m = Except.ok d ∧ 0 < d ∧
        s % (d : Int) = 0 ∧ x = s / (d : Int) ∧ x * (d : Int) = s) := by
  unfold distShapeDim at h
  split at h
  · rename_i hw
    have hx : s = x := by simpa using h
    subst hx
    exact ⟨fun _ => rfl, fun hs hm => absurd hw (by simp [hs, hm])⟩
  · rename_i hw
    split at h
    · exact absurd h (by simp)
    · rename_i d hpi
      split at h
      · exact absurd h (by simp)
      · rename_i hd0
        split at h
        · rename_i hmod
          have hx : s / (d : Int) = x := by simpa using h
          refine ⟨fun hc => absurd hc hw, fun hs hm => ?_⟩
          refine ⟨d, hpi, ?_, hmod, hx.symm, ?_⟩
          · have : d ≠ 0 := fun hc => hd0 (by simp [hc])
            omega
          · rw [← hx]
            exact Int.ediv_mul_cancel (Int.dvd_of_emod_eq_zero hmod)
        · exact absurd h (by simp)

theorem distShapeLoop_spec (mesh : List Nat) :
    ∀ (ss ms ns : List Int), distShapeLoop ss ms mesh = Except.ok ns →
      ms.length = ss.length ∧ ns.length = ss.length ∧
      ∀ i, i < ss.length →
        ((ss.getD i 0 = -1 ∨ ms.getD i 0 = -1) → ns.getD i 0 = ss.getD i 0) ∧
        (ss.getD i 0 ≠ -1 → ms.getD i 0 ≠ -1 →
          ∃ d : Nat, pyIndex mesh (ms.getD i 0) = Except.ok d ∧ 0 < d ∧
            ss.getD i 0 % (d : Int) = 0 ∧
            ns.getD i 0 = ss.getD i 0 / (d : Int) ∧
            ns.getD i 0 * (d : Int) = ss.getD i 0) := by
  intro ss
  induction ss with
  | nil =>
    intro ms ns h
    cases ms with
    | nil =>
      simp [distShapeLoop] at h
      subst h
      simp
    | cons m ms' => simp [distShapeLoop] at h
  | cons s ss' ih =>
    intro ms ns h
    cases ms with
    | nil => simp [distShapeLoop] at h
    | cons m ms' =>
      unfold distShapeLoop at h
      cases hdim : distShapeDim s m mesh with
      | error e => rw [hdim] at h; exact absurd h (by simp)
      | ok x =>
        rw [hdim] at h
        cases hrest : distShapeLoop ss' ms' mesh with
        | error e => rw [hrest] at h; exact absurd h (by simp)
        | ok rest =>
          rw [hrest] at h
          simp at h
          obtain ⟨hml, hnl, hpt⟩ := ih ms' rest hrest
          subst h
          refine ⟨by simp [hml], by simp [hnl], ?_⟩
          intro i hi
          cases i with
          | zero =>
            simpa using distShapeDim_spec s m mesh x hdim
          | succ j =>
            have hj : j < ss'.length := by simpa using hi
            simpa using hpt j hj

theorem distShapeLoop_wf (mesh : List Nat) :
    ∀ (ss ms : List Int), ss.length = ms.length →
      (∀ j, j < ms.length → ms.getD j 0 = -1 ∨
        ∃ d, pyIndex mesh (ms.getD j 0) = Except.ok d ∧ 0 < d) →
      (∃ ns, distShapeLoop ss ms mesh = Except.ok ns) ∨
        distShapeLoop ss ms mesh = Except.error Fault.unevenPartition := by
  intro ss
  induction ss with
  | nil =>
    intro ms hlen _
    cases ms with
    | nil => exact Or.inl ⟨[], rfl⟩
    | cons m ms' => simp at hlen
  | cons s ss' ih =>
    intro ms hlen hwf
    cases ms with
    | nil => simp at hlen
    | cons m ms' =>
      have hlen' : ss'.length = ms'.length := by simpa using hlen
      have hwf' : ∀ j, j < ms'.length → ms'.getD j 0 = -1 ∨
          ∃ d, pyIndex mesh (ms'.getD j 0) = Except.ok d ∧ 0 < d := by
        intro j hj
        have := hwf (j + 1) (by simpa using hj)
        simpa using this
      have hdim : (∃ x, distShapeDim s m mesh = Except.ok x) ∨
          distShapeDim s m mesh = Except.error Fault.unevenPartition := by
        by_cases hw : s = -1 ∨ m = -1
        · exact Or.inl ⟨s, by simp [distShapeDim, hw]⟩
        · have hm : m ≠ -1 := fun hc => hw (Or.inr hc)
          have h0 := hwf 0 (by simp)
          simp at h0
          rcases h0 with h0 | ⟨d, hd, hdpos⟩
          · exact absurd h0 hm
          · have hd0 : (d : Int) ≠ 0 := by omega
            by_cases hmod : s % (d : Int) = 0
            · exact Or.inl ⟨s / (d : Int), by simp [distShapeDim, hw, hd, hd0, hmod]⟩
            · exact Or.inr (by simp [distShapeDim, hw, hd, hd0, hmod])
      rcases hdim with ⟨x, hx⟩ | hx
      · rcases ih ms' hlen' hwf' with ⟨ns, hns⟩ | hns
        · exact Or.inl ⟨x :: ns, by simp [distShapeLoop, hx, hns]⟩
        · exact Or.inr (by simp [distShapeLoop, hx, hns]
          )
      · exact Or.inr (by simp [distShapeLoop, hx])

theorem lookupName_append (m l : List (String × String)) (k v : String)
    (h : lookupName m k = some v) : lookupName (m ++ l) k = some v := by
  induction m with
  | nil => simp [lookupName] at h
  | cons p rest ih =>
    unfold lookupName at h ⊢
    split at h
    · rename_i hp
      simpa [hp] using h
    · rename_i hp
      simpa [hp] using ih h

theorem string_append_suffix (s : String) : s ++ _dist_varname_suffix = s := by
  cases s with
  | mk data =>
    show String.mk data ++ String.mk [] = String.mk data
    show String.append (String.mk data) (String.mk []) = String.mk data
    simp [String.append]

theorem growsBySuffix_refl (m : List (String × String)) : GrowsBySuffix m m :=
  ⟨[], by simp, by simp⟩

theorem growsBySuffix_trans {m m1 m2 : List (String × String)}
    (h1 : GrowsBySuffix m m1) (h2 : GrowsBySuffix m1 m2) : GrowsBySuffix m m2 := by
  obtain ⟨e1, he1, hp1⟩ := h1
  obtain ⟨e2, he2, hp2⟩ := h2
  refine ⟨e1 ++ e2, by simp [he2, he1], ?_⟩
  intro p hp
  rcases List.mem_append.mp hp with h | h
  · exact hp1 p h
  · exact hp2 p h

theorem growsBySuffix_snoc (m : List (String × String)) (n : String) :
    GrowsBySuffix m (m ++ [(n, n ++ _dist_varname_suffix)]) :=
  ⟨[(n, n ++ _dist_varname_suffix)], rfl, by simp⟩

theorem partition_input_vars_grows (serial_block : Block) :
    ∀ (names : List String) (st st1 : FwdState),
      partition_input_vars serial_block names st = Except.ok st1 →
      GrowsBySuffix st.mapping st1.mapping := by
  intro names
  induction names with
  | nil =>
    intro st st1 h
    simp [partition_input_vars] at h
    rw [← h]
    exact growsBySuffix_refl _
  | cons n rest ih =>
    intro st st1 h
    unfold partition_input_vars at h
    split at h
    · exact ih st st1 h
    · split at h
      · split at h
        · exact absurd h (by simp)
        · rename_i pr hpv
          exact growsBySuffix_trans (growsBySuffix_snoc st.mapping n) (ih _ st1 h)
      · split at h
        · exact growsBySuffix_trans (growsBySuffix_snoc st.mapping n) (ih _ st1 h)
        · exact absurd h (by simp)

theorem partition_output_vars_grows (serial_block : Block) :
    ∀ (names : List String) (st st1 : FwdState),
      partition_output_vars serial_block names st = Except.ok st1 →
      GrowsBySuffix st.mapping st1.mapping := by
  intro names
  induction names with
  | nil =>
    intro st st1 h
    simp [partition_output_vars] at h
    rw [← h]
    exact growsBySuffix_refl _
  | cons n rest ih =>
    intro st st1 h
    unfold partition_output_vars at h
    split at h
    · exact ih st st1 h
    · split at h
      · exact absurd h (by simp)
      · rename_i pr hpv
        exact growsBySuffix_trans (growsBySuffix_snoc st.mapping n) (ih _ st1 h)

theorem transpile_one_op_grows (registry : Registry) (op_store : OpAttrStore)
    (serial_block : Block) (op : SerialOp) (st st1 : FwdState)
    (h : transpile_one_op registry op_store serial_block op st = Except.ok st1) :
    GrowsBySuffix st.mapping st1.mapping := by
  unfold transpile_one_op at h
  split at h
  · exact absurd h (by simp)
  · rename_i stA hA
    split at h
    · exact absurd h (by simp)
    · rename_i stB hB
      split at h
      · exact absurd h (by simp)
      · rename_i d hd
        have hmap : st1.mapping = stB.mapping := by
          have : ({ stB with dispatches := stB.dispatches ++ [d] } : FwdState) = st1 := by
            simpa using h
          rw [← this]
        rw [hmap]
        exact growsBySuffix_trans (partition_input_vars_grows serial_block _ st stA hA)
          (partition_output_vars_grows serial_block _ stA stB hB)

theorem forward_transpile_grows (registry : Registry) (op_store : OpAttrStore)
    (serial_block : Block) :
    ∀ (ops : List SerialOp) (st st1 : FwdState),
      _dist_var_op_forward_transpile registry op_store serial_block ops st = Except.ok st1 →
      GrowsBySuffix st.mapping st1.mapping := by
  intro ops
  induction ops with
  | nil =>
    intro st st1 h
    simp [_dist_var_op_forward_transpile] at h
    rw [← h]
    exact growsBySuffix_refl _
  | cons op rest ih =>
    intro st st1 h
    unfold _dist_var_op_forward_transpile at h
    split at h
    · exact absurd h (by simp)
    · rename_i stA hA
      exact growsBySuffix_trans
        (transpile_one_op_grows registry op_store serial_block op st stA hA)
        (ih stA st1 h)

/-- C1: for every variable whose shape length equals its dims_mapping
length, _get_dist_shape computes the local shape dimension-wise: a
wildcard global size or a -1 mapping entry is kept unchanged; otherwise
the call only succeeds when the mapped mesh-axis extent evenly divides
the global size, and the local size is the quotient, so for
fully-distributed dimensions local size times mesh-axis extent equals
the global size. -/
theorem C1_dist_shape_dimwise (var : VarDesc) (attr : TensorDistAttr) (ns : List Int)
    (hlen : var.shape.length = attr.dims_mapping.length)
    (h : _get_dist_shape var attr = Except.ok ns) :
    ns.length = var.shape.length ∧
    ∀ i, i < var.shape.length →
      ((var.shape.getD i 0 = -1 ∨ attr.dims_mapping.getD i 0 = -1) →
        ns.getD i 0 = var.shape.getD i 0) ∧
      (var.shape.getD i 0 ≠ -1 → attr.dims_mapping.getD i 0 ≠ -1 →
        ∃ d : Nat, pyIndex attr.topology (attr.dims_mapping.getD i 0) = Except.ok d ∧ 0 < d ∧
          var.shape.getD i 0 % (d : Int) = 0 ∧
          ns.getD i 0 = var.shape.getD i 0 / (d : Int) ∧
          ns.getD i 0 * (d : Int) = var.shape.getD i 0) := by
  unfold _get_dist_shape at h
  rw [if_pos hlen] at h
  obtain ⟨_, hnl, hpt⟩ := distShapeLoop_spec attr.topology var.shape attr.dims_mapping ns h
  exact ⟨hnl, hpt⟩

/-- Witness for C1: the spec scenario, a [256, 64] parameter with
mapping [0, -1] on a 4-way mesh partitions to [64, 64]. -/
theorem C1_witness :
    wVar.shape.length = wAttr.dims_mapping.length ∧
    _get_dist_shape wVar wAttr = Except.ok [64, 64] ∧
    ([64, 64] : List Int).length = wVar.shape.length :=
  ⟨by decide, rfl, (C1_dist_shape_dimwise wVar wAttr [64, 64] (by decide) rfl).1⟩

/-- C2: a variable with a dimension mapped to a mesh axis whose extent
does not evenly divide the global size fails with the UnevenPartition
fault (under a well-formed mapping every entry is -1 or a valid mesh
index); in particular global shape [255, 64] with mapping [0, -1] on a
mesh axis of extent 4 faults because 255 is not divisible by 4. -/
theorem C2_uneven_partition_fault (var : VarDesc) (attr : TensorDistAttr)
    (hlen : var.shape.length = attr.dims_mapping.length)
    (hwf : ∀ j, j < attr.dims_mapping.length → attr.dims_mapping.getD j 0 = -1 ∨
      ∃ d, pyIndex attr.topology (attr.dims_mapping.getD j 0) = Except.ok d ∧ 0 < d)
    (i : Nat) (hi : i < var.shape.length)
    (hs : var.shape.getD i 0 ≠ -1) (hm : attr.dims_mapping.getD i 0 ≠ -1)
    (d : Nat) (hd : pyIndex attr.topology (attr.dims_mapping.getD i 0) = Except.ok d)
    (hnd : var.shape.getD i 0 % (d : Int) ≠ 0) :
    _get_dist_shape var attr = Except.error Fault.unevenPartition ∧
    _get_dist_shape wVarUneven wAttr = Except.error Fault.unevenPartition := by
  refine ⟨?_, rfl⟩
  unfold _get_dist_shape
  rw [if_pos hlen]
  rcases distShapeLoop_wf attr.topology var.shape attr.dims_mapping hlen hwf with ⟨ns, hns⟩ | hns
  · exfalso
    obtain ⟨_, _, hpt⟩ := distShapeLoop_spec attr.topology var.shape attr.dims_mapping ns hns
    obtain ⟨d2, hd2, _, hmod2, _, _⟩ := (hpt i hi).2 hs hm
    have hdd : d = d2 := by
      have := hd.symm.trans hd2
      simpa using this
    rw [← hdd] at hmod2
    exact hnd hmod2
  · exact hns

/-- Witness for C2: the concrete uneven scenario discharges every
hypothesis of the general statement. -/
theorem C2_witness :
    wVarUneven.shape.length = wAttr.dims_mapping.length ∧
    (255 : Int) % (4 : Nat) ≠ 0 ∧
    _get_dist_shape wVarUneven wAttr = Except.error Fault.unevenPartition :=
  ⟨by decide, by decide,
    (C2_uneven_partition_fault wVarUneven wAttr (by decide)
      (by
        intro j hj
        cases j with
        | zero => exact Or.inr ⟨4, rfl, by decide⟩
        | succ j2 =>
          cases j2 with
          | zero => exact Or.inl (by decide)
          | succ j3 =>
            exfalso
            have h2 : j3 + 1 + 1 < 2 := by simpa [wAttr] using hj
            omega)
      0 (by decide) (by decide) (by decide) 4 rfl (by decide)).1⟩

/-- C3: the renaming table is append-only across forward partitioning:
any entry present before a (successful) run of the forward dist-var/op
transpile is still present, unchanged, afterwards. -/
theorem C3_renaming_table_append_only (registry : Registry) (op_store : OpAttrStore)
    (serial_block : Block) (ops : List SerialOp) (st st1 : FwdState)
    (h : _dist_var_op_forward_transpile registry op_store serial_block ops st = Except.ok st1)
    (k v : String) (hk : lookupName st.mapping k = some v) :
    lookupName st1.mapping k = some v := by
  obtain ⟨extra, he, _⟩ := forward_transpile_grows registry op_store serial_block ops st st1 h
  rw [he]
  exact lookupName_append _ _ _ _ hk

/-- Witness for C3: a one-operator transpile step preserves the
pre-existing entry for x. -/
theorem C3_witness :
    _dist_var_op_forward_transpile cRegistry cOpAttrStore cSerialBlock [cOp] cSt0 =
      Except.ok cSt1 ∧
    lookupName cSt0.mapping "x" = some "x" ∧
    lookupName cSt1.mapping "x" = some "x" :=
  ⟨rfl, rfl,
    C3_renaming_table_append_only cRegistry cOpAttrStore cSerialBlock [cOp] cSt0 cSt1 rfl
      "x" "x" rfl⟩

/-- C10: the fixed distributed-name suffix is the empty string, so
every entry the forward transpile adds to the renaming table maps a
serial name to itself; a table of self-mappings stays a table of
self-mappings. -/
theorem C10_empty_suffix_identity_mapping (registry : Registry) (op_store : OpAttrStore)
    (serial_block : Block) (ops : List SerialOp) (st st1 : FwdState)
    (h : _dist_var_op_forward_transpile registry op_store serial_block ops st = Except.ok st1)
    (hself : ∀ p ∈ st.mapping, p.1 = p.2) :
    _dist_varname_suffix = "" ∧ ∀ p ∈ st1.mapping, p.1 = p.2 := by
  refine ⟨rfl, ?_⟩
  obtain ⟨extra, he, hextra⟩ := forward_transpile_grows registry op_store serial_block ops st st1 h
  rw [he]
  intro p hp
  rcases List.mem_append.mp hp with h1 | h2
  · exact hself p h1
  · rw [hextra p h2]
    exact (string_append_suffix p.1).symm

/-- Witness for C10: the one-operator transpile run keeps the renaming
table an identity mapping. -/
theorem C10_witness :
    _dist_var_op_forward_transpile cRegistry cOpAttrStore cSerialBlock [cOp] cSt0 =
      Except.ok cSt1 ∧
    (∀ p ∈ cSt0.mapping, p.1 = p.2) ∧
    (_dist_varname_suffix = "" ∧ ∀ p ∈ cSt1.mapping, p.1 = p.2) :=
  ⟨rfl, by decide,
    C10_empty_suffix_identity_mapping cRegistry cOpAttrStore cSerialBlock [cOp] cSt0 cSt1 rfl
      (by decide)⟩

/-- Counterexample to C4: with the sharding flag enabled the run does
raise the NotSupported fault, but only AFTER the dist-var/op forward
transpile has completed (the completion event precedes the fault in the
phase trace), contradicting the claim that the fault is raised before
any other forward-partitioning work completes. -/
theorem C4_counterexample :
    (transpile_forward_impl true cRegistry cOpAttrStore cSerialBlock [cOp] cSt0).2 =
      Except.error Fault.notSupportedSharding ∧
    FwdPhaseEvent.distVarOpForwardTranspiled ∈
      (transpile_forward_impl true cRegistry cOpAttrStore cSerialBlock [cOp] cSt0).1 :=
  ⟨rfl, by decide⟩

/-- C4 amended: with the sharding flag enabled, transpile_forward never
returns successfully; when the dist-var/op forward transpile succeeds
on an annotated program, the call ends with the NotSupported fault
raised after that transpile completed — the sharding rewrite is never
silently skipped. -/
theorem C4_sharding_fault_after_forward (registry : Registry) (op_store : OpAttrStore)
    (serial_block : Block) (ops : List SerialOp) (st0 : FwdState) :
    (∀ st1, (transpile_forward_impl true registry op_store serial_block ops st0).2 ≠
      Except.ok st1) ∧
    (∀ st1, _dist_var_op_forward_transpile registry op_store serial_block ops st0 =
        Except.ok st1 →
      _is_valid_annotated_program op_store st0.store serial_block ops = true →
      transpile_forward_impl true registry op_store serial_block ops st0 =
        ([FwdPhaseEvent.annotationValidated, FwdPhaseEvent.distVarOpForwardTranspiled],
         Except.error Fault.notSupportedSharding)) := by
  constructor
  · intro st1
    unfold transpile_forward_impl
    split
    · simp
    · split
      · simp
      · simp
  · intro st1 hok hvalid
    unfold transpile_forward_impl
    have hcond : ¬ ¬ (_is_valid_annotated_program op_store st0.store serial_block ops = true) := by
      simp [hvalid]
    rw [if_neg hcond, hok]
    simp

/-- Witness for C4 amended: the concrete one-operator program. -/
theorem C4_witness :
    _dist_var_op_forward_transpile cRegistry cOpAttrStore cSerialBlock [cOp] cSt0 =
      Except.ok cSt1 ∧
    _is_valid_annotated_program cOpAttrStore cSt0.store cSerialBlock [cOp] = true ∧
    transpile_forward_impl true cRegistry cOpAttrStore cSerialBlock [cOp] cSt0 =
      ([FwdPhaseEvent.annotationValidated, FwdPhaseEvent.distVarOpForwardTranspiled],
       Except.error Fault.notSupportedSharding) :=
  ⟨rfl, by decide,
    (C4_sharding_fault_after_forward cRegistry cOpAttrStore cSerialBlock [cOp] cSt0).2 cSt1
      rfl (by decide)⟩

/-- C5: with the renaming table empty (a fresh orchestrator, before any
forward partitioning) every name lookup raises LookupFailure, and
calling apply_backward raises LookupFailure for the loss name rather
than succeeding. -/
theorem C5_backward_before_forward :
    (∀ (dist_block : Block) (n : String),
      _serial_varname2dist_var [] dist_block n = Except.error (Fault.lookupFailure n)) ∧
    (∀ (sharding : Bool) (registry : Registry) (op_store : OpAttrStore)
       (completion : OpAttrStore → OpAttrStore) (dist_block : Block)
       (dist_ops0 : List SerialOp) (serial_loss : VarDesc)
       (parameter_list no_grad_set : Option (List VarDesc)) (callbacks : Option (List Nat))
       (autodiff : AutodiffFn),
      apply_backward sharding true registry op_store completion [] dist_block dist_ops0
          serial_loss parameter_list no_grad_set callbacks autodiff =
        Except.error (Fault.lookupFailure serial_loss.name)) := by
  constructor
  · intro dist_block n
    rfl
  · intro sharding registry op_store completion dist_block dist_ops0 serial_loss pl ngs cb f
    rfl

/-- Counterexample to C7: the store returns no attribute for a matmul
operator while an implementation set IS registered for matmul; the
forward dispatch then aborts with an AttributeError (None.get_impl_idx)
instead of dispatching to the default replicate fallback. -/
theorem C7_counterexample :
    forward_op_dispatch cRegistryMatmul cOpAttrNone cMatmulOp =
      Except.error Fault.attributeError ∧
    forward_op_dispatch cRegistryMatmul cOpAttrNone cMatmulOp ≠
      Except.ok OpDispatch.defaultReplicate := by
  refine ⟨rfl, ?_⟩
  intro h
  exact Except.noConfusion
    ((rfl : forward_op_dispatch cRegistryMatmul cOpAttrNone cMatmulOp =
        Except.error Fault.attributeError).symm.trans h)

/-- C7 amended: when the store returns no attribute the replicate
fallback is used only when no implementation set is registered for the
operator type (the and-chain short-circuits on the falsy set); with a
registered set and no attribute the dispatch aborts with an
AttributeError.  With an attribute present, the fallback is used when
no set is registered, when the implementation index is negative, or
when the selected implementation does not declare forward support; the
registered implementation is dispatched when it does. -/
theorem C7_dispatch_cases (registry : Registry) (op_store : OpAttrStore) (op : SerialOp) :
    (op_store op.id = none → registry op.type = none →
      forward_op_dispatch registry op_store op = Except.ok OpDispatch.defaultReplicate) ∧
    (∀ s, op_store op.id = none → registry op.type = some s →
      forward_op_dispatch registry op_store op = Except.error Fault.attributeError) ∧
    (∀ a, op_store op.id = some a → registry op.type = none →
      forward_op_dispatch registry op_store op = Except.ok OpDispatch.defaultReplicate) ∧
    (∀ a s, op_store op.id = some a → registry op.type = some s → a.impl_idx < 0 →
      forward_op_dispatch registry op_store op = Except.ok OpDispatch.defaultReplicate) ∧
    (∀ a s impl, op_store op.id = some a → registry op.type = some s → 0 ≤ a.impl_idx →
      s.impls[a.impl_idx.toNat]? = some impl → impl.forward_implemented = false →
      forward_op_dispatch registry op_store op = Except.ok OpDispatch.defaultReplicate) ∧
    (∀ a s impl, op_store op.id = some a → registry op.type = some s → 0 ≤ a.impl_idx →
      s.impls[a.impl_idx.toNat]? = some impl → impl.forward_implemented = true →
      forward_op_dispatch registry op_store op =
        Except.ok (OpDispatch.distImpl op.type a.impl_idx.toNat)) := by
  refine ⟨?_, ?_, ?_, ?_, ?_, ?_⟩
  · intro h1 h2
    simp [forward_op_dispatch, _is_dist_op_forward_implement, h1, h2]
  · intro s h1 h2
    simp [forward_op_dispatch, _is_dist_op_forward_implement, h1, h2]
  · intro a h1 h2
    simp [forward_op_dispatch, _is_dist_op_forward_implement, h1, h2]
  · intro a s h1 h2 h3
    simp [forward_op_dispatch, _is_dist_op_forward_implement, h1, h2, h3]
  · intro a s impl h1 h2 h3 h4 h5
    have h6 : ¬ a.impl_idx < 0 := by omega
    simp [forward_op_dispatch, _is_dist_op_forward_implement, h1, h2, h4, h5, h6]
  · intro a s impl h1 h2 h3 h4 h5
    have h6 : ¬ a.impl_idx < 0 := by omega
    simp [forward_op_dispatch, _is_dist_op_forward_implement, h1, h2, h4, h5, h6]

/-- Witness for C7 amended: a registered matmul implementation with
forward support and a chosen index 0 is dispatched to directly. -/
theorem C7_witness :
    cOpAttrZero cMatmulOp.id = some { impl_idx := 0 } ∧
    cRegistryMatmul cMatmulOp.type = some cImplSet ∧
    cImplSet.impls[(0 : Int).toNat]? =
      some { forward_implemented := true, backward_implemented := true } ∧
    forward_op_dispatch cRegistryMatmul cOpAttrZero cMatmulOp =
      Except.ok (OpDispatch.distImpl "matmul" 0) := by
  refine ⟨rfl, rfl, rfl, ?_⟩
  exact (C7_dispatch_cases cRegistryMatmul cOpAttrZero cMatmulOp).2.2.2.2.2
    { impl_idx := 0 } cImplSet { forward_implemented := true, backward_implemented := true }
    rfl rfl (by decide) rfl rfl

/-- Counterexample to C6: a serial loss of shape [4] (rank 1, extent 4,
so not a scalar per the claim) whose translated distributed loss has
shape [1] passes both scalar checks and the backward transpile
succeeds: the backward phase never inspects the serial loss variable's
own shape, so no InvalidLoss fault is raised where the claim demands
one. -/
theorem C6_counterexample :
    cSerialLossVec.shape = [4] ∧
    _dist_var_op_backward_transpile true cRegistry cOpAttrStore id cLossMapping
        cDistLossBlock [cFwdOp] cSerialLossVec none none cAutodiff =
      Except.ok cBackwardOut :=
  ⟨rfl, rfl⟩

/-- C6 amended: both scalar-loss checks are applied to the TRANSLATED
distributed loss: the backward transpile fails with InvalidLoss exactly
when the translated loss's shape differs from (1,) (so a dist loss of
shape [8, 1] faults), and _auto_backward re-applies the identical check
to the loss it receives; the serial loss's own shape is never
consulted. -/
theorem C6_dist_loss_scalar_check (registry : Registry) (op_store : OpAttrStore)
    (completion : OpAttrStore → OpAttrStore) (mapping : List (String × String))
    (dist_block : Block) (dist_ops0 : List SerialOp) (serial_loss : VarDesc)
    (parameter_list no_grad_set : Option (List VarDesc)) (autodiff : AutodiffFn)
    (dist_loss : VarDesc)
    (hloss : _serial_varname2dist_var mapping dist_block serial_loss.name =
      Except.ok dist_loss)
    (hshape : dist_loss.shape ≠ [1]) :
    _dist_var_op_backward_transpile true registry op_store completion mapping dist_block
        dist_ops0 serial_loss parameter_list no_grad_set autodiff =
      Except.error (Fault.invalidLoss dist_loss.shape) ∧
    (∀ (b : Block) (pl ngs : Option (List VarDesc)) (f : AutodiffFn) (l : VarDesc),
      l.shape ≠ [1] →
        _auto_backward b l pl ngs f = Except.error (Fault.invalidLoss l.shape)) := by
  constructor
  · simp only [_dist_var_op_backward_transpile, hloss, if_true]
    rw [if_neg hshape]
  · intro b pl ngs f l hl
    simp only [_auto_backward]
    rw [if_neg hl]

/-- Witness for C6 amended: a translated distributed loss of shape
[8, 1] faults with InvalidLoss. -/
theorem C6_witness :
    _serial_varname2dist_var cLossMapping cDistLossBlock81 cSerialLoss81.name =
      Except.ok cDistLoss81 ∧
    cDistLoss81.shape ≠ [1] ∧
    _dist_var_op_backward_transpile true cRegistry cOpAttrStore id cLossMapping
        cDistLossBlock81 [cFwdOp] cSerialLoss81 none none cAutodiff =
      Except.error (Fault.invalidLoss [8, 1]) := by
  refine ⟨rfl, by decide, ?_⟩
  exact (C6_dist_loss_scalar_check cRegistry cOpAttrStore id cLossMapping cDistLossBlock81
    [cFwdOp] cSerialLoss81 none none cAutodiff cDistLoss81 rfl (by decide)).1


theorem backward_transpile_params_none
    (compatible : Bool) (registry : Registry) (op_store : OpAttrStore)
    (completion : OpAttrStore → OpAttrStore) (mapping : List (String × String))
    (dist_block : Block) (dist_ops0 : List SerialOp) (serial_loss : VarDesc)
    (autodiff : AutodiffFn) (out : BackwardOutcome)
    (h : _dist_var_op_backward_transpile compatible registry op_store completion mapping
      dist_block dist_ops0 serial_loss none none autodiff = Except.ok out) :
    out.autodiffParams = none := by
  unfold _dist_var_op_backward_transpile at h
  split at h
  · split at h
    · exact absurd h (by simp)
    · rename_i dist_loss hdl
      split at h
      · rename_i hsh
        dsimp only at h
        split at h
        · exact absurd h (by simp)
        · rename_i plNames ngNames outcome hab
          split at h
          · exact absurd h (by simp)
          · rename_i i hidx
            split at h
            · exact absurd h (by simp)
            · split at h
              · exact absurd h (by simp)
              · rename_i ds hloop
                unfold _auto_backward at hab
                rw [if_pos hsh] at hab
                simp only [Option.map_none', Except.ok.injEq, Prod.mk.injEq] at hab
                have hpl : plNames = none := hab.1.symm
                simp only [Except.ok.injEq] at h
                rw [← h]
                exact hpl
      · exact absurd h (by simp)
  · exact absurd h (by simp)

/-- C8 is violated by the code: apply_backward discards its optional
parameter allow-list, no-grad set and callbacks when calling
apply_backward_impl (and the impl drops them again when calling the
backward transpile), so the result is independent of all three and the
autodiff collaborator is always invoked with parameter_list None —
the documented translation of the listed names never happens via the
public call. -/
theorem C8_optional_args_dropped :
    (∀ (sharding compatible : Bool) (registry : Registry) (op_store : OpAttrStore)
       (completion : OpAttrStore → OpAttrStore) (mapping : List (String × String))
       (dist_block : Block) (dist_ops0 : List SerialOp) (serial_loss : VarDesc)
       (pl1 ngs1 pl2 ngs2 : Option (List VarDesc)) (cb1 cb2 : Option (List Nat))
       (autodiff : AutodiffFn),
      apply_backward sharding compatible registry op_store completion mapping dist_block
          dist_ops0 serial_loss pl1 ngs1 cb1 autodiff =
        apply_backward sharding compatible registry op_store completion mapping dist_block
          dist_ops0 serial_loss pl2 ngs2 cb2 autodiff) ∧
    (∀ (sharding compatible : Bool) (registry : Registry) (op_store : OpAttrStore)
       (completion : OpAttrStore → OpAttrStore) (mapping : List (String × String))
       (dist_block : Block) (dist_ops0 : List SerialOp) (serial_loss : VarDesc)
       (pl ngs : Option (List VarDesc)) (cb : Option (List Nat))
       (autodiff : AutodiffFn) (out : BackwardOutcome),
      apply_backward sharding compatible registry op_store completion mapping dist_block
          dist_ops0 serial_loss pl ngs cb autodiff = Except.ok out →
        out.autodiffParams = none) := by
  constructor
  · intro sharding compatible registry op_store completion mapping dist_block dist_ops0
      serial_loss pl1 ngs1 pl2 ngs2 cb1 cb2 autodiff
    rfl
  · intro sharding compatible registry op_store completion mapping dist_block dist_ops0
      serial_loss pl ngs cb autodiff out h
    unfold apply_backward apply_backward_impl at h
    split at h
    · exact absurd h (by simp)
    · rename_i out2 htr
      split at h
      · exact absurd h (by simp)
      · have hout : out2 = out := by simpa using h
        rw [← hout]
        exact backward_transpile_params_none compatible registry op_store completion mapping
          dist_block dist_ops0 serial_loss autodiff out2 htr

/-- Witness for C8: a concrete successful call with a one-element
parameter list behaves exactly like the call without one, and the
autodiff collaborator received None. -/
theorem C8_witness :
    apply_backward false true cRegistry cOpAttrStore id cLossMapping cDistLossBlock [cFwdOp]
        cSerialLossScalar (some [cW]) (some [cW]) (some [0]) cAutodiff =
      apply_backward false true cRegistry cOpAttrStore id cLossMapping cDistLossBlock [cFwdOp]
        cSerialLossScalar none none none cAutodiff ∧
    apply_backward false true cRegistry cOpAttrStore id cLossMapping cDistLossBlock [cFwdOp]
        cSerialLossScalar (some [cW]) (some [cW]) (some [0]) cAutodiff =
      Except.ok cBackwardOut ∧
    cBackwardOut.autodiffParams = none := by
  refine ⟨?_, rfl, ?_⟩
  · exact C8_optional_args_dropped.1 false true cRegistry cOpAttrStore id cLossMapping
      cDistLossBlock [cFwdOp] cSerialLossScalar (some [cW]) (some [cW]) none none
      (some [0]) none cAutodiff
  · exact C8_optional_args_dropped.2 false true cRegistry cOpAttrStore id cLossMapping
      cDistLossBlock [cFwdOp] cSerialLossScalar (some [cW]) (some [cW]) (some [0]) cAutodiff
      cBackwardOut rfl

/-- Counterexample to C9: partitioning a reader variable does not
recreate it with metadata identical to the source: this source reader
has stop_gradient false and dtype 7, but the destination variable has
stop_gradient forced to true and the create_var default dtype — only
the type tag is copied. -/
theorem C9_counterexample :
    cReaderSrc.stop_gradient = false ∧
    _partition_var cTensorStore cReaderBlock cEmptyBlock "reader_q" "reader_q" =
      Except.ok (cEmptyBlock.addVar (readerPartitionedVar cReaderSrc "reader_q"),
                 cTensorStore) ∧
    (readerPartitionedVar cReaderSrc "reader_q").stop_gradient = true ∧
    (readerPartitionedVar cReaderSrc "reader_q").dtype ≠ cReaderSrc.dtype :=
  ⟨rfl, rfl, rfl, by decide⟩

/-- C9 amended: reader variables are never reshaped (the shard-shape
computation and the attribute store are not consulted); they are
recreated with only the type tag copied from the source and are marked
persistent and stop-gradient, every other descriptor field (shape,
element type, lod level, ...) taking the create_var default rather
than the source's value. -/
theorem C9_reader_recreated (store : TensorAttrStore) (src_block dst_block : Block)
    (src_varname dst_varname : String) (src : VarDesc)
    (hfind : src_block.varByName src_varname = some src)
    (hreader : src.type = VarType.reader) :
    _partition_var store src_block dst_block src_varname dst_varname =
      Except.ok (dst_block.addVar (readerPartitionedVar src dst_varname), store) ∧
    (readerPartitionedVar src dst_varname).name = dst_varname ∧
    (readerPartitionedVar src dst_varname).type = src.type ∧
    (readerPartitionedVar src dst_varname).persistable = true ∧
    (readerPartitionedVar src dst_varname).stop_gradient = true ∧
    (readerPartitionedVar src dst_varname).shape = defaultVarDesc.shape ∧
    (readerPartitionedVar src dst_varname).dtype = defaultVarDesc.dtype ∧
    (readerPartitionedVar src dst_varname).lod_level = defaultVarDesc.lod_level := by
  refine ⟨?_, rfl, rfl, rfl, rfl, rfl, rfl, rfl⟩
  unfold _partition_var
  rw [hfind]
  simp [hreader]

/-- Witness for C9 amended: the concrete reader variable. -/
theorem C9_witness :
    cReaderBlock.varByName "reader_q" = some cReaderSrc ∧
    cReaderSrc.type = VarType.reader ∧
    _partition_var cTensorStore cReaderBlock cEmptyBlock "reader_q" "r_dist" =
      Except.ok (cEmptyBlock.addVar (readerPartitionedVar cReaderSrc "r_dist"),
                 cTensorStore) := by
  refine ⟨rfl, rfl, ?_⟩
  exact (C9_reader_recreated cTensorStore cReaderBlock cEmptyBlock "reader_q" "r_dist"
    cReaderSrc rfl rfl).1
